import Mathlib

set_option maxRecDepth 16384

/-!
Verification of the xcube grid-mapping / spatial-resampling core.

The Python sources are shallowly embedded: numbers become `ℚ` (all the
properties checked here are exact-arithmetic facts about the formulas the
code computes), raising code becomes `Except String`, Python's tri-state
`Optional[bool]` becomes `Option Bool` with its truthiness made explicit.
Code of the repository that lives in modules not shipped with the sources
(`gridmapping/helpers.py`, `gridmapping/bboxes.py`, `util/assertions.py`,
`resampling/rectify.py`) is modelled from the specification; each such
definition carries a doc comment starting with `Modelled from the spec:`.
-/

/-- Decidable equality for `Except`, used to evaluate the embedded
fallible operations on concrete inputs. -/
instance {ε α : Type} [DecidableEq ε] [DecidableEq α] :
    DecidableEq (Except ε α) := fun a b =>
  match a, b with
  | .ok a, .ok b =>
      if h : a = b then .isTrue (by rw [h]) else
        .isFalse (by intro hc; cases hc; exact h rfl)
  | .error a, .error b =>
      if h : a = b then .isTrue (by rw [h]) else
        .isFalse (by intro hc; cases hc; exact h rfl)
  | .ok _, .error _ => .isFalse (by intro hc; cases hc)
  | .error _, .ok _ => .isFalse (by intro hc; cases hc)

namespace Xcube

/-- The 2×3 affine transform matrix `((a,b,c),(d,e,f))` representing
`x' = a*i + b*j + c`, `y' = d*i + e*j + f`
(`AffineTransformMatrix` of `gridmapping/helpers.py`). -/
abbrev AffineTransformMatrix := (ℚ × ℚ × ℚ) × (ℚ × ℚ × ℚ)

/-- Modelled from the spec: application of an `AffineTransformMatrix` to a
point, `x' = a*i + b*j + c`, `y' = d*i + e*j + f` (§3; the invertible
affine-map object of the external `affine` library, reached through
`helpers._to_affine`, which is not among the sources). -/
def affineApply (m : AffineTransformMatrix) (p : ℚ × ℚ) : ℚ × ℚ :=
  (m.1.1 * p.1 + m.1.2.1 * p.2 + m.1.2.2,
   m.2.1 * p.1 + m.2.2.1 * p.2 + m.2.2.2)

/-- Modelled from the spec: composition `m * n` of affine maps (apply `n`
first, then `m`), as provided by the external `affine` library (§3). -/
def affineMul (m n : AffineTransformMatrix) : AffineTransformMatrix :=
  ((m.1.1 * n.1.1 + m.1.2.1 * n.2.1,
    m.1.1 * n.1.2.1 + m.1.2.1 * n.2.2.1,
    m.1.1 * n.1.2.2 + m.1.2.1 * n.2.2.2 + m.1.2.2),
   (m.2.1 * n.1.1 + m.2.2.1 * n.2.1,
    m.2.1 * n.1.2.1 + m.2.2.1 * n.2.2.1,
    m.2.1 * n.1.2.2 + m.2.2.1 * n.2.2.2 + m.2.2.2))

/-- Determinant of the linear part of an affine transform matrix. -/
def affineDet (m : AffineTransformMatrix) : ℚ :=
  m.1.1 * m.2.2.1 - m.1.2.1 * m.2.1

/-- Modelled from the spec: inversion `~m` of an affine map, as provided by
the external `affine` library (§3): the unique affine map `n` with
`n * m = m * n = identity` whenever the determinant is nonzero. -/
def affineInv (m : AffineTransformMatrix) : AffineTransformMatrix :=
  let d := affineDet m
  ((m.2.2.1 / d, -m.1.2.1 / d,
    (m.1.2.1 * m.2.2.2 - m.1.2.2 * m.2.2.1) / d),
   (-m.2.1 / d, m.1.1 / d,
    (m.1.2.2 * m.2.1 - m.1.1 * m.2.2.2) / d))

/-- The identity affine transform matrix. -/
def affineId : AffineTransformMatrix := ((1, 0, 0), (0, 1, 0))

/-- A coordinate reference system, reduced to what the embedded code
observes: equality and the `is_geographic` predicate. -/
structure CRS where
  srs : String
  isGeographic : Bool
deriving DecidableEq

/-- Python truthiness of an `Optional[bool]` value: only `True` is truthy;
both `False` and `None` are falsy. -/
def truthy : Option Bool → Bool
  | some true => true
  | _ => false

/-- The state of a `GridMapping` (`gridmapping/base.py`): image size, tile
size, spatial bounding box, per-axis resolution, CRS, variable/dimension
names and the three tri-state flags. -/
structure GridMapping where
  size : ℕ × ℕ
  tileSize : ℕ × ℕ
  xyBbox : ℚ × ℚ × ℚ × ℚ
  xyRes : ℚ × ℚ
  crs : CRS
  xyVarNames : String × String
  xyDimNames : String × String
  isRegular : Option Bool
  isLon360 : Option Bool
  isJAxisUp : Option Bool
deriving DecidableEq

namespace GridMapping

/-- `GridMapping.width`. -/
def width (gm : GridMapping) : ℕ := gm.size.1

/-- `GridMapping.height`. -/
def height (gm : GridMapping) : ℕ := gm.size.2

/-- `GridMapping.x_min`. -/
def xMin (gm : GridMapping) : ℚ := gm.xyBbox.1

/-- `GridMapping.y_min`. -/
def yMin (gm : GridMapping) : ℚ := gm.xyBbox.2.1

/-- `GridMapping.x_max`. -/
def xMax (gm : GridMapping) : ℚ := gm.xyBbox.2.2.1

/-- `GridMapping.y_max`. -/
def yMax (gm : GridMapping) : ℚ := gm.xyBbox.2.2.2

/-- `GridMapping.x_res`. -/
def xRes (gm : GridMapping) : ℚ := gm.xyRes.1

/-- `GridMapping.y_res`. -/
def yRes (gm : GridMapping) : ℚ := gm.xyRes.2

end GridMapping

/-- Modelled from the spec: `helpers._assert_valid_xy_names` (not among the
sources) accepts a pair of names that are non-empty and distinct (§3). -/
def validXyNames (ns : String × String) : Bool :=
  ns.1 ≠ "" && ns.2 ≠ "" && ns.1 != ns.2

/-- The checked constructor `GridMapping.__init__` (`base.py`).
`assert_true cond msg` of `util/assertions.py` (not among the sources) is
modelled from the spec as raising a `ValueError` carrying exactly `msg`
when `cond` fails; raising becomes `Except.error`.  Pair-normalisation of
`size`/`tile_size`/`xy_res` is the identity here because the embedding
always receives pairs. -/
def mkGridMapping (size : ℕ × ℕ) (tileSize : Option (ℕ × ℕ))
    (xyBbox : ℚ × ℚ × ℚ × ℚ) (xyRes : ℚ × ℚ) (crs : CRS)
    (xyVarNames xyDimNames : String × String)
    (isRegular isLon360 isJAxisUp : Option Bool) :
    Except String GridMapping :=
  let (w, h) := size
  if ¬ (w > 1 ∧ h > 1) then .error "invalid size" else
  let (tw, th) := tileSize.getD (w, h)
  if ¬ (tw > 1 ∧ th > 1) then .error "invalid tile_size" else
  if ¬ validXyNames xyVarNames then .error "invalid xy_var_names" else
  if ¬ validXyNames xyDimNames then .error "invalid xy_dim_names" else
  let (xr, yr) := xyRes
  if ¬ (xr > 0 ∧ yr > 0) then .error "invalid xy_res" else
  .ok { size := (w, h), tileSize := (tw, th), xyBbox := xyBbox,
        xyRes := (xr, yr), crs := crs, xyVarNames := xyVarNames,
        xyDimNames := xyDimNames, isRegular := isRegular,
        isLon360 := isLon360, isJAxisUp := isJAxisUp }

/-- Modelled from the spec: `helpers._default_xy_var_names` (not among the
sources) picks CRS-dependent default coordinate variable names; the exact
names play no role in any claim. -/
def defaultXyVarNames (crs : CRS) : String × String :=
  if crs.isGeographic then ("lon", "lat") else ("x", "y")

/-- Modelled from the spec: `helpers._default_xy_dim_names` (not among the
sources), as `defaultXyVarNames`. -/
def defaultXyDimNames (crs : CRS) : String × String :=
  if crs.isGeographic then ("lon", "lat") else ("x", "y")

/-- `new_regular_grid_mapping` (`gridmapping/regular.py`): validates size
and resolution, computes the bounding box from the origin, applies the
latitude checks for geographic CRSs and builds the `GridMapping` state.
The j-axis flag is passed through as the tri-state it is stored as. -/
def newRegularGridMapping (size : ℕ × ℕ) (xyMin : ℚ × ℚ)
    (xyRes : ℚ × ℚ) (crs : CRS) (tileSize : Option (ℕ × ℕ))
    (isJAxisUp : Option Bool) : Except String GridMapping :=
  let (w, h) := size
  if ¬ (w > 1 ∧ h > 1) then .error "invalid size" else
  let (xmin, ymin) := xyMin
  let (xr, yr) := xyRes
  if ¬ (xr > 0 ∧ yr > 0) then .error "invalid xy_res" else
  let xmax : ℚ := xmin + xr * w
  let ymax : ℚ := ymin + yr * h
  if crs.isGeographic ∧ ymin < -90 then .error "invalid y_min" else
  if crs.isGeographic ∧ ymax > 90 then
    .error "invalid size, y_min combination" else
  mkGridMapping (w, h) (some (tileSize.getD (w, h)))
    (xmin, ymin, xmax, ymax) (xr, yr) crs
    (defaultXyVarNames crs) (defaultXyDimNames crs)
    (some true) (some (decide (xmax > 180))) isJAxisUp

/-- The error message of `GridMapping._assert_regular` (`base.py`). -/
def notRegularMsg : String :=
  "Operation not implemented for non-regular grid mappings"

/-- `GridMapping.ij_to_xy_transform` (`base.py`): defined only for regular
grid mappings (the `NotImplementedError` raised by `_assert_regular`
becomes `Except.error`); the `if self.is_j_axis_up` branch follows Python
truthiness of the tri-state flag. -/
def ijToXyTransform (gm : GridMapping) :
    Except String AffineTransformMatrix :=
  if truthy gm.isRegular then
    .ok (if truthy gm.isJAxisUp then
          ((gm.xRes, 0, gm.xMin), (0, gm.yRes, gm.yMin))
        else
          ((gm.xRes, 0, gm.xMin), (0, -gm.yRes, gm.yMax)))
  else .error notRegularMsg

/-- `GridMapping.xy_to_ij_transform` (`base.py`):
`_from_affine(~_to_affine(self.ij_to_xy_transform))`. -/
def xyToIjTransform (gm : GridMapping) :
    Except String AffineTransformMatrix :=
  (ijToXyTransform gm).map affineInv

/-- `GridMapping.ij_transform_to` (`base.py`): requires both operands
regular, then composes `other.xy_to_ij_transform * self.ij_to_xy_transform`
(`b * a` applies `a` first). -/
def ijTransformTo (gm other : GridMapping) :
    Except String AffineTransformMatrix :=
  if ¬ truthy gm.isRegular then .error notRegularMsg else
  if ¬ truthy other.isRegular then
    .error "other must be a regular grid mapping" else
  do
    let a ← ijToXyTransform gm
    let b ← xyToIjTransform other
    .ok (affineMul b a)

/-- `GridMapping.ij_transform_from` (`base.py`): the inverse of
`self.ij_transform_to(other)`. -/
def ijTransformFrom (gm other : GridMapping) :
    Except String AffineTransformMatrix :=
  if ¬ truthy gm.isRegular then .error notRegularMsg else
  if ¬ truthy other.isRegular then
    .error "other must be a regular grid mapping" else
  do
    let a ← ijTransformTo gm other
    .ok (affineInv a)

/-- A non-geographic CRS, standing in for `pyproj.crs.CRS(5243)` of the
tests. -/
def planarCrs : CRS := { srs := "EPSG:5243", isGeographic := false }

/-- A geographic CRS, standing in for `pyproj.crs.CRS(4326)`. -/
def geoCrs : CRS := { srs := "EPSG:4326", isGeographic := true }

/-- The grid mapping produced by
`GridMapping.regular(size=(1200,1200), xy_min=(0,0), xy_res=1,
crs=NOT_A_GEO_CRS)` used by the pixel-corner-mapping example. -/
def grid1200 : GridMapping :=
  { size := (1200, 1200), tileSize := (1200, 1200),
    xyBbox := (0, 0, 1200, 1200), xyRes := (1, 1), crs := planarCrs,
    xyVarNames := ("x", "y"), xyDimNames := ("x", "y"),
    isRegular := some true, isLon360 := some true,
    isJAxisUp := some false }

/-- The grid mapping of `GridMapping.regular(size=(1440,720),
xy_min=(-180,-90), xy_res=0.25, crs=GEO_CRS, is_j_axis_up=True)`. -/
def gm1440 : GridMapping :=
  { size := (1440, 720), tileSize := (1440, 720),
    xyBbox := (-180, -90, 180, 90), xyRes := (1/4, 1/4), crs := geoCrs,
    xyVarNames := ("lon", "lat"), xyDimNames := ("lon", "lat"),
    isRegular := some true, isLon360 := some false,
    isJAxisUp := some true }

/-- The grid mapping of `GridMapping.regular(size=(1000,1000),
xy_min=(10,50), xy_res=0.025, crs=GEO_CRS, is_j_axis_up=True)`. -/
def gm1000 : GridMapping :=
  { size := (1000, 1000), tileSize := (1000, 1000),
    xyBbox := (10, 50, 35, 75), xyRes := (1/40, 1/40), crs := geoCrs,
    xyVarNames := ("lon", "lat"), xyDimNames := ("lon", "lat"),
    isRegular := some true, isLon360 := some false,
    isJAxisUp := some true }

/-- `numpy`/`dask` `linspace(a, b, n)` sampled at index `k`:
`a + k * (b - a) / (n - 1)` (external library, standard semantics). -/
def linspace (a b : ℚ) (n : ℕ) (k : ℕ) : ℚ :=
  a + k * ((b - a) / ((n : ℚ) - 1))

/-- The x component of `RegularGridMapping._new_xy_coords`
(`gridmapping/regular.py`): `linspace` between the half-pixel-inset
bounds, broadcast along rows. -/
def regularXCoord (gm : GridMapping) (i : ℕ) : ℚ :=
  linspace (gm.xMin + gm.xRes / 2) (gm.xMax - gm.xRes / 2) gm.width i

/-- The y component of `RegularGridMapping._new_xy_coords`
(`gridmapping/regular.py`): the half-pixel-inset bounds are swapped
unless `is_j_axis_up` is truthy. -/
def regularYCoord (gm : GridMapping) (j : ℕ) : ℚ :=
  let y1 := gm.yMin + gm.yRes / 2
  let y2 := gm.yMax - gm.yRes / 2
  if truthy gm.isJAxisUp then linspace y1 y2 gm.height j
  else linspace y2 y1 gm.height j

/-- Modelled from the spec: the set of pixels whose coordinate values fall
inside the (already grown) query box — the per-pixel scan/compare of
`bboxes.compute_ij_bboxes` (`gridmapping/bboxes.py`, not among the
sources); `x`/`y` are the two planes of the `(2, height, width)`
coordinate array, indexed as `x j i`. -/
def pixelHits (x y : ℕ → ℕ → ℚ) (w h : ℕ) (x1 y1 x2 y2 : ℚ) :
    Finset (ℕ × ℕ) :=
  (Finset.range w ×ˢ Finset.range h).filter fun p =>
    x1 ≤ x p.2 p.1 ∧ x p.2 p.1 ≤ x2 ∧ y1 ≤ y p.2 p.1 ∧ y p.2 p.1 ≤ y2

/-- Modelled from the spec: turn the set of hit pixels into an i,j
bounding box — the minimal enclosing pixel box, grown by `ij_border` and
clipped to `[0,width] × [0,height]`, or the `(-1,-1,-1,-1)` sentinel when
no pixel intersects (§4.4; `bboxes.py` not among the sources). -/
def ijBoxFromHits (S : Finset (ℕ × ℕ)) (w h ijBorder : ℕ) :
    ℤ × ℤ × ℤ × ℤ :=
  if hS : S.Nonempty then
    (((S.image Prod.fst).min' (hS.image _) - ijBorder : ℕ),
     ((S.image Prod.snd).min' (hS.image _) - ijBorder : ℕ),
     (min ((S.image Prod.fst).max' (hS.image _) + 1 + ijBorder) w : ℕ),
     (min ((S.image Prod.snd).max' (hS.image _) + 1 + ijBorder) h : ℕ))
  else (-1, -1, -1, -1)

/-- Modelled from the spec: `bboxes.compute_ij_bboxes` for a single query
box — grow the box by `xy_border`, scan the coordinate planes for hits,
and emit the grown-and-clipped pixel box or the sentinel (§4.4). -/
def computeIjBbox (x y : ℕ → ℕ → ℚ) (w h : ℕ) (bbox : ℚ × ℚ × ℚ × ℚ)
    (xyBorder : ℚ) (ijBorder : ℕ) : ℤ × ℤ × ℤ × ℤ :=
  ijBoxFromHits
    (pixelHits x y w h (bbox.1 - xyBorder) (bbox.2.1 - xyBorder)
      (bbox.2.2.1 + xyBorder) (bbox.2.2.2 + xyBorder))
    w h ijBorder

/-- `GridMapping.ij_bboxes_from_xy_bboxes` (`base.py`) for a
`RegularGridMapping`: runs the scan against the grid's own coordinate
planes (`self.xy_coords`, generated by
`RegularGridMapping._new_xy_coords`) for every query box. -/
def ijBboxesFromXyBboxes (gm : GridMapping)
    (xyBboxes : List (ℚ × ℚ × ℚ × ℚ)) (xyBorder : ℚ) (ijBorder : ℕ) :
    List (ℤ × ℤ × ℤ × ℤ) :=
  xyBboxes.map fun b =>
    computeIjBbox (fun _ i => regularXCoord gm i)
      (fun j _ => regularYCoord gm j) gm.width gm.height b
      xyBorder ijBorder

/-- `GridMapping.ij_bbox_from_xy_bbox` (`base.py`): the scalar wrapper
over the vectorized form, applied to the one-row array `[xy_bbox]`. -/
def ijBboxFromXyBbox (gm : GridMapping) (bbox : ℚ × ℚ × ℚ × ℚ)
    (xyBorder : ℚ) (ijBorder : ℕ) : ℤ × ℤ × ℤ × ℤ :=
  (ijBboxesFromXyBboxes gm [bbox] xyBorder ijBorder).headD
    (-1, -1, -1, -1)

/-- The regular global grid of the tests: `size=(720,360)`,
`tile_size=(360,180)`, `xy_bbox=(-180,-90,180,90)`, `xy_res=(0.5,0.5)`,
geographic CRS, j-axis down. -/
def gmGlobal : GridMapping :=
  { size := (720, 360), tileSize := (360, 180),
    xyBbox := (-180, -90, 180, 90), xyRes := (1/2, 1/2), crs := geoCrs,
    xyVarNames := ("x", "y"), xyDimNames := ("x", "y"),
    isRegular := some true, isLon360 := some false,
    isJAxisUp := some false }

/-- An `xarray` variable as `resampling/affine.py` observes it: its
dimension names, whether its dtype is integer-or-bool, its attributes and
its (otherwise opaque) array data. -/
structure Variable (α : Type) where
  dims : List String
  isIntOrBool : Bool
  attrs : List (String × String)
  data : α
deriving DecidableEq

/-- An `xarray` dataset as the resampling code observes it:
`dataset.variables` (field `vars` here, since `variables` is reserved in
Lean) is the union of data variables and coordinate variables;
`coordNames` remembers which keys are coordinates. -/
structure Dataset (α : Type) where
  vars : List (String × Variable α)
  coordNames : List String
  attrs : List (String × String)
deriving DecidableEq

/-- One per-variable entry of the `var_configs` mapping of
`resample_dataset`: optional overrides for `spline_order`, `aggregator`
and `recover_nan` (`Agg` is the opaque type of aggregating functions). -/
structure VarConfig (Agg : Type) where
  splineOrder : Option ℕ
  aggregator : Option (Option Agg)
  recoverNan : Option Bool

/-- The signature of `resample_ndimage` (`resampling/affine.py`); its
numeric behaviour lives in the external `dask`/`dask_image` libraries, so
the claims about `resample_dataset` are proved for every backend of this
type: data, `scale=(j_scale, i_scale)`, `offset=(j_off, i_off)`,
`shape=(height, width)`, `chunks=(tile_height, tile_width)`,
`spline_order`, `aggregator`, `recover_nan`. -/
def ResampleBackend (α Agg : Type) : Type :=
  α → (ℚ × ℚ) → (ℚ × ℚ) → (ℕ × ℕ) → (ℕ × ℕ) → ℕ → Option Agg → Bool → α

/-- `resample_dataset` (`resampling/affine.py`): destructures the 2×3
matrix as `((i_scale, _, i_off), (_, j_scale, j_off))` — the off-diagonal
entries are discarded — and walks `dataset.variables`: a variable whose
trailing two dimensions are `(y_dim, x_dim)` is resampled through the
backend with dtype-dependent defaults overridable per variable; a
variable containing neither spatial dimension is copied unchanged; every
other variable is dropped.  Output keys keep their coords/data-vars
routing. -/
def resampleDataset {α Agg : Type} (R : ResampleBackend α Agg)
    (nanmean : Agg) (dataset : Dataset α)
    (matrix : AffineTransformMatrix) (size tileSize : ℕ × ℕ)
    (xyDimNames : String × String)
    (varConfigs : List (String × VarConfig Agg)) : Dataset α :=
  let iScale := matrix.1.1
  let iOff := matrix.1.2.2
  let jScale := matrix.2.2.1
  let jOff := matrix.2.2.2
  let (width, height) := size
  let (tileWidth, tileHeight) := tileSize
  let (xDim, yDim) := xyDimNames
  let yxDims := [yDim, xDim]
  let newVars := dataset.vars.filterMap fun kv =>
    let (k, var) := kv
    if var.dims.length ≥ 2 ∧
        var.dims.drop (var.dims.length - 2) = yxDims then
      let cfg := (varConfigs.lookup k).getD ⟨none, none, none⟩
      let dSpline : ℕ := if var.isIntOrBool then 0 else 1
      let dAgg : Option Agg := if var.isIntOrBool then none
                               else some nanmean
      let dRecover : Bool := if var.isIntOrBool then false else true
      some (k, { var with
        data := R var.data (jScale, iScale) (jOff, iOff)
          (height, width) (tileHeight, tileWidth)
          (cfg.splineOrder.getD dSpline) (cfg.aggregator.getD dAgg)
          (cfg.recoverNan.getD dRecover) })
    else if xDim ∉ var.dims ∧ yDim ∉ var.dims then
      some (k, var)
    else none
  { vars := newVars, coordNames := dataset.coordNames,
    attrs := dataset.attrs }

/-- The state of a `TilingScheme` (`core/tilingscheme.py`). -/
structure TilingScheme where
  numLevelZeroTiles : ℕ × ℕ
  crsName : String
  mapHeight : ℚ
  tileSize : ℕ
  minLevel : Option ℤ
  maxLevel : Option ℤ

namespace TilingScheme

/-- `TilingScheme.map_width`:
`map_height * num_tiles_x0 / num_tiles_y0`. -/
def mapWidth (ts : TilingScheme) : ℚ :=
  ts.mapHeight * ts.numLevelZeroTiles.1 / ts.numLevelZeroTiles.2

/-- `TilingScheme.get_tile_extent` (`tilingscheme.py`): `None` for a
negative level or out-of-range tile indices, otherwise the tile extent
computed from the map origin `(-map_width/2, map_height/2)` and the
per-level tile sizes, with the row index growing downward. -/
def getTileExtent (ts : TilingScheme) (tileX tileY tileZ : ℤ) :
    Option (ℚ × ℚ × ℚ × ℚ) :=
  if tileZ < 0 then none else
  let zoomFactor : ℤ := 2 ^ tileZ.toNat
  let n0 := ts.numLevelZeroTiles
  let numTilesX : ℤ := n0.1 * zoomFactor
  if tileX < 0 ∨ tileX ≥ numTilesX then none else
  let numTilesY : ℤ := n0.2 * zoomFactor
  if tileY < 0 ∨ tileY ≥ numTilesY then none else
  let mw := ts.mapWidth
  let mh := ts.mapHeight
  let mapX0 := -mw / 2
  let mapY0 := mh / 2
  let mapTileWidth := mw / (zoomFactor : ℚ) / (n0.1 : ℚ)
  let mapTileHeight := mh / (zoomFactor : ℚ) / (n0.2 : ℚ)
  some (mapX0 + tileX * mapTileWidth,
        mapY0 - (tileY + 1) * mapTileHeight,
        mapX0 + (tileX + 1) * mapTileWidth,
        mapY0 - tileY * mapTileHeight)

/-- Claim C7's reading of the spec, stated in its own words for
comparison: the extent of tile `(x,y)` when the map's total extent is
divided into `num_level_zero_tiles * 2^z` equal cells per axis, with
`tile_y = 0` the topmost row. -/
def specTileExtent (ts : TilingScheme) (tileX tileY tileZ : ℤ) :
    ℚ × ℚ × ℚ × ℚ :=
  let nX : ℚ := ts.numLevelZeroTiles.1 * 2 ^ tileZ.toNat
  let nY : ℚ := ts.numLevelZeroTiles.2 * 2 ^ tileZ.toNat
  let cellW := ts.mapWidth / nX
  let cellH := ts.mapHeight / nY
  (-ts.mapWidth / 2 + tileX * cellW,
   ts.mapHeight / 2 - (tileY + 1) * cellH,
   -ts.mapWidth / 2 + (tileX + 1) * cellW,
   ts.mapHeight / 2 - tileY * cellH)

end TilingScheme

/-- Python `math.isclose(a, b, abs_tol=t)` (standard library):
`|a - b| <= max(rel_tol * max(|a|, |b|), abs_tol)` with the default
`rel_tol = 1e-9`. -/
def mathIsclose (a b absTol : ℚ) : Bool :=
  decide (|a - b| ≤ max (1/1000000000 * max |a| |b|) absTol)

/-- `GridMapping.is_close` (`base.py`): exact equality of the orientation,
lon-360 and regularity flags, size, tile size and CRS, then
`math.isclose` on the resolutions and the bounding-box corners.  The
`self is other` object-identity fast path of the Python code is
unobservable in a value embedding (identical values are structurally
equal, for which the remaining checks succeed as well). -/
def isClose (gm other : GridMapping) (tolerance : ℚ) : Bool :=
  if gm.isJAxisUp = other.isJAxisUp ∧ gm.isLon360 = other.isLon360 ∧
      gm.isRegular = other.isRegular ∧ gm.size = other.size ∧
      gm.tileSize = other.tileSize ∧ gm.crs = other.crs then
    if mathIsclose gm.xRes other.xRes tolerance &&
        mathIsclose gm.yRes other.yRes tolerance then
      mathIsclose gm.xyBbox.1 other.xyBbox.1 tolerance &&
      mathIsclose gm.xyBbox.2.1 other.xyBbox.2.1 tolerance &&
      mathIsclose gm.xyBbox.2.2.1 other.xyBbox.2.2.1 tolerance &&
      mathIsclose gm.xyBbox.2.2.2 other.xyBbox.2.2.2 tolerance
    else false
  else false

/-- Modelled from the spec: `helpers.scale_xy_res_and_size` (not among
the sources); per the worked example of §8 (`scale((0.25,0.5))` on a
`(720,360)` grid), the image size scales by the factor per axis and the
resolution is divided by it, preserving the spatial extent.  Python's
round-half-to-even differs from `round` at exact halves; no claim
depends on that boundary. -/
def scaleXyResAndSize (xyRes : ℚ × ℚ) (size : ℕ × ℕ)
    (xyScale : ℚ × ℚ) : (ℚ × ℚ) × (ℕ × ℕ) :=
  ((xyRes.1 / xyScale.1, xyRes.2 / xyScale.2),
   ((round ((size.1 : ℚ) * xyScale.1)).toNat,
    (round ((size.2 : ℚ) * xyScale.2)).toNat))

/-- `GridMapping.derive` (`base.py`): a copy with selected fields
overridden, re-validating names and tile size (the coordinate-cache
rechunking has no counterpart in a value embedding). -/
def deriveGm (gm : GridMapping)
    (xyVarNames xyDimNames : Option (String × String))
    (tileSize : Option (ℕ × ℕ)) (isJAxisUp : Option Bool) :
    Except String GridMapping :=
  let g1 := match xyVarNames with
    | some ns => { gm with xyVarNames := ns }
    | none => gm
  if xyVarNames.isSome ∧ ¬ validXyNames (xyVarNames.getD ("", "")) then
    .error "invalid xy_var_names" else
  let g2 := match xyDimNames with
    | some ns => { g1 with xyDimNames := ns }
    | none => g1
  if xyDimNames.isSome ∧ ¬ validXyNames (xyDimNames.getD ("", "")) then
    .error "invalid xy_dim_names" else
  let g3 := match tileSize with
    | some t => { g2 with tileSize := t }
    | none => g2
  if tileSize.isSome ∧
      ¬ ((tileSize.getD (0, 0)).1 > 1 ∧ (tileSize.getD (0, 0)).2 > 1) then
    .error "invalid tile_size" else
  .ok (match isJAxisUp with
    | some b => { g3 with isJAxisUp := some b }
    | none => g3)

/-- `to_regular_grid_mapping` (`gridmapping/regular.py`): an
already-regular grid is returned (possibly re-derived when the tile size
or the j-axis flag changes); otherwise a regular cover is estimated from
the bounding box and the minimum (or, when that is zero, maximum)
resolution, clamped to at least 2×2.  Python's round-half-to-even differs
from `round` at exact halves; no claim depends on that boundary. -/
def toRegularGridMapping (gm : GridMapping) (tileSize : Option (ℕ × ℕ))
    (isJAxisUp : Bool) : Except String GridMapping :=
  if truthy gm.isRegular then
    if tileSize ≠ none ∨ some isJAxisUp ≠ gm.isJAxisUp then
      deriveGm gm none none tileSize (some isJAxisUp)
    else .ok gm
  else
    let m := min gm.xRes gm.yRes
    let xyRes := if m = 0 then max gm.xRes gm.yRes else m
    let w := (round ((gm.xMax - gm.xMin + xyRes) / xyRes)).toNat
    let h := (round ((gm.yMax - gm.yMin + xyRes) / xyRes)).toNat
    let w := if w ≥ 2 then w else 2
    let h := if h ≥ 2 then h else 2
    newRegularGridMapping (w, h) (gm.xMin, gm.yMin) (xyRes, xyRes)
      gm.crs tileSize (some isJAxisUp)

/-- `GridMapping.scale` (`base.py`): regular grids only; scales
resolution and size through `scale_xy_res_and_size`, clamps the tile
size to the new image size, rebuilds through the `regular` factory and
re-applies the original variable/dimension names via `derive`. -/
def scaleGm (gm : GridMapping) (xyScale : ℚ × ℚ)
    (tileSize : Option (ℕ × ℕ)) : Except String GridMapping :=
  if ¬ truthy gm.isRegular then .error notRegularMsg else
  let rs := scaleXyResAndSize gm.xyRes gm.size xyScale
  let t := tileSize.getD gm.tileSize
  let tw := min rs.2.1 t.1
  let th := min rs.2.2 t.2
  (newRegularGridMapping rs.2 (gm.xMin, gm.yMin) rs.1 gm.crs
    (some (tw, th)) gm.isJAxisUp).bind fun g =>
      deriveGm g (some gm.xyVarNames) (some gm.xyDimNames) none none

/-- The collaborators `resample_in_space`/`affine_transform_dataset`
depend on whose code is not among the sources
(`resampling/rectify.py`, `gridmapping/dataset.py`,
`gridmapping/transform.py`, `gridmapping/coords.py`) together with the
external interpolation backend; every claim about the orchestrator is
proved for all instantiations of this record. -/
structure SpatialOps (α Agg : Type) where
  fromDataset : Dataset α → Option (ℕ × ℕ) → Option CRS → GridMapping
  rectifyDataset : Dataset α → GridMapping → GridMapping → Dataset α
  transformGm : GridMapping → CRS → GridMapping
  assignTransformedCoords : Dataset α → GridMapping → Dataset α
  assignCrsVar : Dataset α → CRS → Dataset α
  toCoords : GridMapping → (String × String) → (String × String) →
    Bool → Bool → List (String × Variable α)
  assignCoords : Dataset α → List (String × Variable α) → Dataset α
  backend : ResampleBackend α Agg
  nanmean : Agg

/-- `affine_transform_dataset` (`resampling/affine.py`): requires equal
CRSs (error message naming both) and two regular grid mappings, derives
the pixel transform `target_gm.ij_transform_to(source_gm)`, resamples,
and attaches the freshly computed target coordinates (bounds coordinates
only when a source coordinate variable carries a truthy `bounds`
attribute). -/
def affineTransformDataset {α Agg : Type} (ops : SpatialOps α Agg)
    (dataset : Dataset α) (sourceGm targetGm : GridMapping)
    (varConfigs : List (String × VarConfig Agg)) (reuseCoords : Bool) :
    Except String (Dataset α) :=
  if sourceGm.crs ≠ targetGm.crs then
    .error ("CRS of source_gm and target_gm must be equal, was \"" ++
      sourceGm.crs.srs ++ "\" and \"" ++ targetGm.crs.srs ++ "\"") else
  if ¬ truthy sourceGm.isRegular then
    .error "source_gm must be a regular grid mapping" else
  if ¬ truthy targetGm.isRegular then
    .error "target_gm must be a regular grid mapping" else
  (ijTransformTo targetGm sourceGm).map fun matrix =>
    let resampled := resampleDataset ops.backend ops.nanmean dataset
      matrix targetGm.size targetGm.tileSize sourceGm.xyDimNames
      varConfigs
    let hasBounds := [sourceGm.xyVarNames.1, sourceGm.xyVarNames.2].any
      fun n => (((dataset.vars.lookup n).bind
        fun v => v.attrs.lookup "bounds").getD "") != ""
    let newCoords := ops.toCoords targetGm sourceGm.xyVarNames
      sourceGm.xyDimNames (!hasBounds) reuseCoords
    ops.assignCoords resampled newCoords

/-- The branch structure of `resample_in_space`
(`resampling/spatial.py`) after source and target grid mappings are
resolved; `recur` stands for the recursive call made by the
reprojection branch. -/
def resampleInSpaceSteps {α Agg : Type} (ops : SpatialOps α Agg)
    (recur : Dataset α → Option GridMapping → Option GridMapping →
      List (String × VarConfig Agg) → Except String (Dataset α))
    (dataset : Dataset α) (sourceGm targetGm : GridMapping)
    (varConfigs : List (String × VarConfig Agg)) :
    Except String (Dataset α) :=
  if isClose sourceGm targetGm (1/100000) then .ok dataset
  else if ¬ truthy targetGm.isRegular then
    .error "target_gm must be a regular grid mapping"
  else if (sourceGm.crs.isGeographic ∧ targetGm.crs.isGeographic) ∨
      sourceGm.crs = targetGm.crs then
    if truthy sourceGm.isRegular then
      affineTransformDataset ops dataset sourceGm targetGm varConfigs
        false
    else
      let xScale := sourceGm.xRes / targetGm.xRes
      let yScale := sourceGm.yRes / targetGm.yRes
      if xScale > 19/20 ∧ yScale > 19/20 then
        .ok (ops.rectifyDataset dataset sourceGm targetGm)
      else
        if truthy sourceGm.isRegular then
          (scaleGm sourceGm (xScale, yScale) none).map
            fun downscaledGm =>
              ops.rectifyDataset
                (resampleDataset ops.backend ops.nanmean dataset
                  ((xScale, 1, 0), (1, yScale, 0)) downscaledGm.size
                  sourceGm.tileSize sourceGm.xyDimNames varConfigs)
                downscaledGm targetGm
        else
          let downscaledDataset := resampleDataset ops.backend
            ops.nanmean dataset ((xScale, 1, 0), (1, yScale, 0))
            (scaleXyResAndSize sourceGm.xyRes sourceGm.size
              (xScale, yScale)).2
            sourceGm.tileSize sourceGm.xyDimNames varConfigs
          .ok (ops.rectifyDataset downscaledDataset
            (ops.fromDataset downscaledDataset (some sourceGm.tileSize)
              (some sourceGm.crs))
            targetGm)
  else
    let transformedSourceGm := ops.transformGm sourceGm targetGm.crs
    (recur (ops.assignTransformedCoords dataset transformedSourceGm)
        (some transformedSourceGm) (some targetGm) []).map
      fun reprojected =>
        if ¬ targetGm.crs.isGeographic then
          ops.assignCrsVar reprojected targetGm.crs
        else reprojected

/-- The entry of `resample_in_space`: resolve the source grid mapping
from the dataset when absent, resolve the target as
`source_gm.to_regular()` when absent, then run the branch structure. -/
def resampleInSpaceBody {α Agg : Type} (ops : SpatialOps α Agg)
    (recur : Dataset α → Option GridMapping → Option GridMapping →
      List (String × VarConfig Agg) → Except String (Dataset α))
    (dataset : Dataset α) (sourceGm? targetGm? : Option GridMapping)
    (varConfigs : List (String × VarConfig Agg)) :
    Except String (Dataset α) :=
  let sourceGm := sourceGm?.getD (ops.fromDataset dataset none none)
  match targetGm? with
  | some t => resampleInSpaceSteps ops recur dataset sourceGm t
      varConfigs
  | none => (toRegularGridMapping sourceGm none false).bind fun t =>
      resampleInSpaceSteps ops recur dataset sourceGm t varConfigs

/-- `resample_in_space` (`resampling/spatial.py`), with a fuel parameter
for the self-call of the reprojection branch (the Python recursion
terminates because the transformed source shares the target CRS; fuel
makes this explicit in the embedding). -/
def resampleInSpace {α Agg : Type} (ops : SpatialOps α Agg) :
    ℕ → Dataset α → Option GridMapping → Option GridMapping →
    List (String × VarConfig Agg) → Except String (Dataset α)
  | 0 => fun _ _ _ _ => .error "recursion fuel exhausted"
  | fuel + 1 => resampleInSpaceBody ops (resampleInSpace ops fuel)

/-- Claim C10's reading of `resample_in_space`: identical branch
structure except that the downsample-before-rectify step downscales via
`GridMapping.from_dataset` unconditionally — the sub-branch guarded a
second time by `source_gm.is_regular` is removed. -/
def resampleInSpaceStepsNoDead {α Agg : Type} (ops : SpatialOps α Agg)
    (recur : Dataset α → Option GridMapping → Option GridMapping →
      List (String × VarConfig Agg) → Except String (Dataset α))
    (dataset : Dataset α) (sourceGm targetGm : GridMapping)
    (varConfigs : List (String × VarConfig Agg)) :
    Except String (Dataset α) :=
  if isClose sourceGm targetGm (1/100000) then .ok dataset
  else if ¬ truthy targetGm.isRegular then
    .error "target_gm must be a regular grid mapping"
  else if (sourceGm.crs.isGeographic ∧ targetGm.crs.isGeographic) ∨
      sourceGm.crs = targetGm.crs then
    if truthy sourceGm.isRegular then
      affineTransformDataset ops dataset sourceGm targetGm varConfigs
        false
    else
      let xScale := sourceGm.xRes / targetGm.xRes
      let yScale := sourceGm.yRes / targetGm.yRes
      if xScale > 19/20 ∧ yScale > 19/20 then
        .ok (ops.rectifyDataset dataset sourceGm targetGm)
      else
        let downscaledDataset := resampleDataset ops.backend
          ops.nanmean dataset ((xScale, 1, 0), (1, yScale, 0))
          (scaleXyResAndSize sourceGm.xyRes sourceGm.size
            (xScale, yScale)).2
          sourceGm.tileSize sourceGm.xyDimNames varConfigs
        .ok (ops.rectifyDataset downscaledDataset
          (ops.fromDataset downscaledDataset (some sourceGm.tileSize)
            (some sourceGm.crs))
          targetGm)
  else
    let transformedSourceGm := ops.transformGm sourceGm targetGm.crs
    (recur (ops.assignTransformedCoords dataset transformedSourceGm)
        (some transformedSourceGm) (some targetGm) []).map
      fun reprojected =>
        if ¬ targetGm.crs.isGeographic then
          ops.assignCrsVar reprojected targetGm.crs
        else reprojected

/-- The entry of the dead-branch-free reading of `resample_in_space`. -/
def resampleInSpaceBodyNoDead {α Agg : Type} (ops : SpatialOps α Agg)
    (recur : Dataset α → Option GridMapping → Option GridMapping →
      List (String × VarConfig Agg) → Except String (Dataset α))
    (dataset : Dataset α) (sourceGm? targetGm? : Option GridMapping)
    (varConfigs : List (String × VarConfig Agg)) :
    Except String (Dataset α) :=
  let sourceGm := sourceGm?.getD (ops.fromDataset dataset none none)
  match targetGm? with
  | some t => resampleInSpaceStepsNoDead ops recur dataset sourceGm t
      varConfigs
  | none => (toRegularGridMapping sourceGm none false).bind fun t =>
      resampleInSpaceStepsNoDead ops recur dataset sourceGm t varConfigs

/-- The dead-branch-free reading of `resample_in_space`, with fuel. -/
def resampleInSpaceNoDead {α Agg : Type} (ops : SpatialOps α Agg) :
    ℕ → Dataset α → Option GridMapping → Option GridMapping →
    List (String × VarConfig Agg) → Except String (Dataset α)
  | 0 => fun _ _ _ _ => .error "recursion fuel exhausted"
  | fuel + 1 => resampleInSpaceBodyNoDead ops
      (resampleInSpaceNoDead ops fuel)

/-- A trivial collaborator instantiation, used to witness claims at
concrete inputs. -/
def unitOps : SpatialOps Unit Unit :=
  { fromDataset := fun _ _ _ => gmGlobal,
    rectifyDataset := fun d _ _ => d,
    transformGm := fun g _ => g,
    assignTransformedCoords := fun d _ => d,
    assignCrsVar := fun d _ => d,
    toCoords := fun _ _ _ _ _ => [],
    assignCoords := fun d _ => d,
    backend := fun d _ _ _ _ _ _ _ => d,
    nanmean := () }

/-- The empty dataset over `Unit` data, used by witnesses. -/
def unitDataset : Dataset Unit := { vars := [], coordNames := [],
                                    attrs := [] }

/-! ## Affine-map algebra -/

theorem affineMul_affineInv (m : AffineTransformMatrix)
    (h : affineDet m ≠ 0) :
    affineMul m (affineInv m) = affineId ∧
    affineMul (affineInv m) m = affineId := by
  obtain ⟨⟨a, b, c⟩, d, e, f⟩ := m
  simp only [affineDet] at h
  simp only [affineMul, affineInv, affineDet, affineId, Prod.mk.injEq]
  repeat' apply And.intro
  all_goals field_simp
  all_goals ring

theorem affineMul_assoc (a b c : AffineTransformMatrix) :
    affineMul (affineMul a b) c = affineMul a (affineMul b c) := by
  obtain ⟨⟨a1, a2, a3⟩, a4, a5, a6⟩ := a
  obtain ⟨⟨b1, b2, b3⟩, b4, b5, b6⟩ := b
  obtain ⟨⟨c1, c2, c3⟩, c4, c5, c6⟩ := c
  simp only [affineMul, Prod.mk.injEq]
  repeat' apply And.intro
  all_goals ring

theorem affineMul_id (m : AffineTransformMatrix) :
    affineMul m affineId = m := by
  obtain ⟨⟨a1, a2, a3⟩, a4, a5, a6⟩ := m
  simp only [affineMul, affineId, Prod.mk.injEq]
  repeat' apply And.intro
  all_goals ring

theorem affineId_mul (m : AffineTransformMatrix) :
    affineMul affineId m = m := by
  obtain ⟨⟨a1, a2, a3⟩, a4, a5, a6⟩ := m
  simp only [affineMul, affineId, Prod.mk.injEq]
  repeat' apply And.intro
  all_goals ring

theorem affineDet_mul (m n : AffineTransformMatrix) :
    affineDet (affineMul m n) = affineDet m * affineDet n := by
  obtain ⟨⟨a1, a2, a3⟩, a4, a5, a6⟩ := m
  obtain ⟨⟨b1, b2, b3⟩, b4, b5, b6⟩ := n
  simp only [affineMul, affineDet]
  ring

theorem affineInv_unique (m x : AffineTransformMatrix)
    (hdet : affineDet m ≠ 0) (h1 : affineMul x m = affineId) :
    x = affineInv m := by
  calc x = affineMul x affineId := (affineMul_id x).symm
    _ = affineMul x (affineMul m (affineInv m)) := by
          rw [(affineMul_affineInv m hdet).1]
    _ = affineMul (affineMul x m) (affineInv m) :=
          (affineMul_assoc x m (affineInv m)).symm
    _ = affineMul affineId (affineInv m) := by rw [h1]
    _ = affineInv m := affineId_mul (affineInv m)

theorem affineInv_mul_symm (A B : AffineTransformMatrix)
    (hA : affineDet A ≠ 0) (hB : affineDet B ≠ 0) :
    affineMul (affineInv B) A =
    affineInv (affineMul (affineInv A) B) := by
  have hid : affineMul (affineMul (affineInv B) A)
      (affineMul (affineInv A) B) = affineId := by
    rw [affineMul_assoc, ← affineMul_assoc A,
      (affineMul_affineInv A hA).1, affineId_mul,
      (affineMul_affineInv B hB).2]
  have hdet : affineDet (affineMul (affineInv A) B) ≠ 0 := by
    intro h0
    have hd := congrArg affineDet hid
    rw [affineDet_mul, h0, mul_zero] at hd
    simp [affineDet, affineId] at hd
  exact affineInv_unique _ _ hdet hid

theorem ijToXy_det (gm : GridMapping) (hreg : truthy gm.isRegular = true)
    (hx : 0 < gm.xRes) (hy : 0 < gm.yRes) :
    ∃ M, ijToXyTransform gm = .ok M ∧ affineDet M ≠ 0 := by
  refine ⟨(if truthy gm.isJAxisUp then
      ((gm.xRes, 0, gm.xMin), (0, gm.yRes, gm.yMin))
    else ((gm.xRes, 0, gm.xMin), (0, -gm.yRes, gm.yMax))),
    by simp [ijToXyTransform, hreg], ?_⟩
  cases truthy gm.isJAxisUp <;> simp [affineDet] <;>
    exact ⟨hx.ne', hy.ne'⟩

/-! ## Claims about the pixel/CRS transform matrices -/

/-- C1: for every regular grid mapping the `ij_to_xy_transform` matrix is
`((x_res,0,x_min),(0,y_res,y_min))` when `is_j_axis_up` is truthy and
`((x_res,0,x_min),(0,-y_res,y_max))` otherwise; for the regular grid with
`size=(1200,1200)`, `xy_min=(0,0)`, `xy_res=1`, `is_j_axis_up=False` the
matrix is `((1,0,0),(0,-1,1200))` and maps pixel `(0,1200)` to `(0,0)`,
`(1024,1200)` to `(1024,0)` and `(0,176)` to `(0,1024)`. -/
theorem claim_C1 :
    (∀ gm : GridMapping, truthy gm.isRegular = true →
      ijToXyTransform gm = .ok (if truthy gm.isJAxisUp then
          ((gm.xRes, 0, gm.xMin), (0, gm.yRes, gm.yMin))
        else
          ((gm.xRes, 0, gm.xMin), (0, -gm.yRes, gm.yMax)))) ∧
    newRegularGridMapping (1200, 1200) (0, 0) (1, 1) planarCrs none
      (some false) = .ok grid1200 ∧
    ijToXyTransform grid1200 = .ok ((1, 0, 0), (0, -1, 1200)) ∧
    affineApply ((1, 0, 0), (0, -1, 1200)) (0, 1200) = (0, 0) ∧
    affineApply ((1, 0, 0), (0, -1, 1200)) (1024, 1200) = (1024, 0) ∧
    affineApply ((1, 0, 0), (0, -1, 1200)) (0, 176) = (0, 1024) := by
  refine ⟨?_, ?_, by rfl, ?_, ?_, ?_⟩
  · intro gm h
    simp [ijToXyTransform, h]
  · norm_num [newRegularGridMapping, mkGridMapping, planarCrs, grid1200,
      validXyNames, defaultXyVarNames, defaultXyDimNames]
    decide
  all_goals norm_num [affineApply]

/-- Witness for C1: the universally quantified conjunct, applied to the
concrete `grid1200`. -/
theorem claim_C1_witness :
    truthy grid1200.isRegular = true ∧
    ijToXyTransform grid1200 = .ok (if truthy grid1200.isJAxisUp then
        ((grid1200.xRes, 0, grid1200.xMin),
         (0, grid1200.yRes, grid1200.yMin))
      else
        ((grid1200.xRes, 0, grid1200.xMin),
         (0, -grid1200.yRes, grid1200.yMax))) :=
  ⟨rfl, claim_C1.1 grid1200 rfl⟩

/-- C2: for every regular grid mapping (with the constructor invariant
`x_res > 0`, `y_res > 0`), `xy_to_ij_transform` is the exact matrix
inverse of `ij_to_xy_transform`, and their composition in either order
is the identity affine map (exactly, in `ℚ`). -/
theorem claim_C2 (gm : GridMapping) (hreg : truthy gm.isRegular = true)
    (hx : 0 < gm.xRes) (hy : 0 < gm.yRes) :
    ∃ A B, ijToXyTransform gm = .ok A ∧ xyToIjTransform gm = .ok B ∧
      B = affineInv A ∧
      affineMul A B = affineId ∧ affineMul B A = affineId := by
  have hdet : ∀ M, ijToXyTransform gm = .ok M → affineDet M ≠ 0 := by
    intro M hM
    simp [ijToXyTransform, hreg] at hM
    subst hM
    cases truthy gm.isJAxisUp <;> simp [affineDet] <;>
      exact ⟨hx.ne', hy.ne'⟩
  refine ⟨(if truthy gm.isJAxisUp then
      ((gm.xRes, 0, gm.xMin), (0, gm.yRes, gm.yMin))
    else ((gm.xRes, 0, gm.xMin), (0, -gm.yRes, gm.yMax))), _,
    by simp [ijToXyTransform, hreg], ?_, rfl, ?_, ?_⟩
  · simp [xyToIjTransform, ijToXyTransform, hreg, Except.map]
  · exact (affineMul_affineInv _
      (hdet _ (by simp [ijToXyTransform, hreg]))).1
  · exact (affineMul_affineInv _
      (hdet _ (by simp [ijToXyTransform, hreg]))).2

/-- Witness for C2 at the concrete `grid1200`. -/
theorem claim_C2_witness :
    truthy grid1200.isRegular = true ∧ 0 < grid1200.xRes ∧
    0 < grid1200.yRes ∧
    (∃ A B, ijToXyTransform grid1200 = .ok A ∧
      xyToIjTransform grid1200 = .ok B ∧ B = affineInv A ∧
      affineMul A B = affineId ∧ affineMul B A = affineId) :=
  ⟨rfl, by norm_num [grid1200, GridMapping.xRes],
   by norm_num [grid1200, GridMapping.yRes],
   claim_C2 grid1200 rfl (by norm_num [grid1200, GridMapping.xRes])
     (by norm_num [grid1200, GridMapping.yRes])⟩

/-- C3: `a.ij_transform_to(b)` equals `b.ij_transform_from(a)` for any two
regular grid mappings sharing a CRS, and the worked example of the tests:
`gm1.ij_transform_to(gm2) = ((10,0,-7600),(0,10,-5600)) =
gm2.ij_transform_from(gm1)` and the inverse direction yields
`((0.1,0,760),(0,0.1,560))`. -/
theorem claim_C3 :
    (∀ a b : GridMapping, a.crs = b.crs →
      truthy a.isRegular = true → truthy b.isRegular = true →
      0 < a.xRes → 0 < a.yRes → 0 < b.xRes → 0 < b.yRes →
      ijTransformTo a b = ijTransformFrom b a) ∧
    ijTransformTo gm1440 gm1000 = .ok ((10, 0, -7600), (0, 10, -5600)) ∧
    ijTransformFrom gm1000 gm1440 =
      .ok ((10, 0, -7600), (0, 10, -5600)) ∧
    ijTransformTo gm1000 gm1440 = .ok ((1/10, 0, 760), (0, 1/10, 560)) ∧
    ijTransformFrom gm1440 gm1000 =
      .ok ((1/10, 0, 760), (0, 1/10, 560)) := by
  refine ⟨?_, ?_, ?_, ?_, ?_⟩
  · intro a b _ ha hb hax hay hbx hby
    obtain ⟨Ma, hMa, hdA⟩ := ijToXy_det a ha hax hay
    obtain ⟨Mb, hMb, hdB⟩ := ijToXy_det b hb hbx hby
    simp [ijTransformTo, ijTransformFrom, ha, hb, hMa, hMb,
      xyToIjTransform, Except.map, Except.bind]
    exact congrArg Except.ok (affineInv_mul_symm Ma Mb hdA hdB)
  all_goals
    norm_num [ijTransformTo, ijTransformFrom, ijToXyTransform,
      xyToIjTransform, gm1440, gm1000, truthy, GridMapping.xRes,
      GridMapping.yRes, GridMapping.xMin, GridMapping.yMin,
      GridMapping.xMax, GridMapping.yMax, affineMul, affineInv,
      affineDet, Except.map, Except.bind, bind]

/-- Witness for C3: the symmetry conjunct applied to the two concrete
grids of the worked example. -/
theorem claim_C3_witness :
    gm1440.crs = gm1000.crs ∧ truthy gm1440.isRegular = true ∧
    truthy gm1000.isRegular = true ∧ 0 < gm1440.xRes ∧ 0 < gm1440.yRes ∧
    0 < gm1000.xRes ∧ 0 < gm1000.yRes ∧
    ijTransformTo gm1440 gm1000 = ijTransformFrom gm1000 gm1440 :=
  ⟨rfl, rfl, rfl, by norm_num [gm1440, GridMapping.xRes],
   by norm_num [gm1440, GridMapping.yRes],
   by norm_num [gm1000, GridMapping.xRes],
   by norm_num [gm1000, GridMapping.yRes],
   claim_C3.1 gm1440 gm1000 rfl rfl rfl
     (by norm_num [gm1440, GridMapping.xRes])
     (by norm_num [gm1440, GridMapping.yRes])
     (by norm_num [gm1000, GridMapping.xRes])
     (by norm_num [gm1000, GridMapping.yRes])⟩

/-- C5: constructing a grid mapping whose height is 1 fails with message
exactly `"invalid size"` (whatever the remaining arguments), and a
construction passing the size/tile-size/name checks with `xy_res = -0.1`
fails with message exactly `"invalid xy_res"`; instantiated with the
argument sets of the tests. -/
theorem claim_C5 :
    (∀ tileSize xyBbox xyRes crs vn dn r l j,
      mkGridMapping (360, 1) tileSize xyBbox xyRes crs vn dn r l j =
        .error "invalid size") ∧
    (∀ (size : ℕ × ℕ) tileSize xyBbox crs vn dn r l j,
      1 < size.1 → 1 < size.2 →
      1 < (tileSize.getD size).1 → 1 < (tileSize.getD size).2 →
      validXyNames vn = true → validXyNames dn = true →
      mkGridMapping size tileSize xyBbox (-1/10, -1/10) crs vn dn r l j =
        .error "invalid xy_res") ∧
    mkGridMapping (360, 1) (some (360, 180)) (-180, -90, 180, 90)
      (1/2, 1/2) geoCrs ("x", "y") ("x", "y") (some true) (some false)
      (some false) = .error "invalid size" ∧
    mkGridMapping (720, 360) (some (360, 180)) (-180, -90, 180, 90)
      (-1/10, -1/10) geoCrs ("x", "y") ("x", "y") (some true)
      (some false) (some false) = .error "invalid xy_res" := by
  refine ⟨?_, ?_, ?_, ?_⟩
  · intro tileSize xyBbox xyRes crs vn dn r l j
    simp [mkGridMapping]
  · intro size tileSize xyBbox crs vn dn r l j h1 h2 h3 h4 h5 h6
    obtain ⟨w, h⟩ := size
    simp only at h1 h2 h3 h4
    simp only [mkGridMapping, h1, h2, h3, h4, h5, h6, and_self,
      not_true_eq_false, if_false, Bool.true_eq_false]
    norm_num
  · simp [mkGridMapping]
  · norm_num [mkGridMapping, validXyNames]
    decide

/-- Witness for C5: the `"invalid xy_res"` conjunct applied at the
concrete argument set of the tests. -/
theorem claim_C5_witness :
    1 < (720, 360).1 ∧ 1 < (720, 360).2 ∧
    1 < ((some ((360 : ℕ), (180 : ℕ))).getD (720, 360)).1 ∧
    1 < ((some ((360 : ℕ), (180 : ℕ))).getD (720, 360)).2 ∧
    validXyNames ("x", "y") = true ∧ validXyNames ("x", "y") = true ∧
    mkGridMapping (720, 360) (some (360, 180)) (-180, -90, 180, 90)
      (-1/10, -1/10) geoCrs ("x", "y") ("x", "y") (some true)
      (some false) (some false) = .error "invalid xy_res" :=
  ⟨by decide, by decide, by decide, by decide, by decide, by decide,
   claim_C5.2.1 (720, 360) (some (360, 180)) (-180, -90, 180, 90)
     geoCrs ("x", "y") ("x", "y") (some true) (some false) (some false)
     (by decide) (by decide) (by decide) (by decide) (by decide)
     (by decide)⟩

/-- C7: `get_tile_extent` returns `None` exactly for a negative level or
a tile index outside `[0, num_level_zero_tiles * 2^z)` on either axis,
and otherwise the extent obtained by dividing the map's total extent into
`num_level_zero_tiles * 2^z` equal cells per axis with row 0 on top. -/
theorem claim_C7 (ts : TilingScheme) (tx ty tz : ℤ) :
    ts.getTileExtent tx ty tz =
      if tz < 0 ∨ tx < 0 ∨ tx ≥ ts.numLevelZeroTiles.1 * 2 ^ tz.toNat ∨
         ty < 0 ∨ ty ≥ ts.numLevelZeroTiles.2 * 2 ^ tz.toNat then none
      else some (ts.specTileExtent tx ty tz) := by
  simp only [TilingScheme.getTileExtent, TilingScheme.specTileExtent]
  split_ifs with h1 h2 h3 h4 <;> try tauto
  simp only [Option.some.injEq, Prod.mk.injEq]
  push_cast
  refine ⟨?_, ?_, ?_, ?_⟩ <;> ring

/-! ## The bounding-box scan on the regular global grid -/

theorem gmGlobal_xCoord (i : ℕ) :
    regularXCoord gmGlobal i = -719/4 + i/2 := by
  simp only [regularXCoord, linspace, gmGlobal, GridMapping.xMin,
    GridMapping.xMax, GridMapping.xRes, GridMapping.width]
  norm_num
  ring

theorem gmGlobal_yCoord (j : ℕ) :
    regularYCoord gmGlobal j = 359/4 - j/2 := by
  simp only [regularYCoord, linspace, gmGlobal, GridMapping.yMin,
    GridMapping.yMax, GridMapping.yRes, GridMapping.height, truthy]
  norm_num
  ring

theorem ijBoxFromHits_product (A B : Finset ℕ) (w h ib : ℕ)
    (hA : A.Nonempty) (hB : B.Nonempty) :
    ijBoxFromHits (A ×ˢ B) w h ib =
      (((A.min' hA - ib : ℕ) : ℤ), ((B.min' hB - ib : ℕ) : ℤ),
       ((min (A.max' hA + 1 + ib) w : ℕ) : ℤ),
       ((min (B.max' hB + 1 + ib) h : ℕ) : ℤ)) := by
  unfold ijBoxFromHits
  rw [dif_pos (hA.product hB)]
  simp only [Finset.product_image_fst hB, Finset.product_image_snd hA]

theorem range_min (n : ℕ) (hn : 0 < n) (hne : (Finset.range n).Nonempty) :
    (Finset.range n).min' hne = 0 :=
  le_antisymm (Finset.min'_le _ _ (Finset.mem_range.mpr hn)) (Nat.zero_le _)

theorem range_max (n : ℕ) (hne : (Finset.range n).Nonempty) :
    (Finset.range n).max' hne = n - 1 := by
  refine le_antisymm (Finset.max'_le _ _ _ ?_) (Finset.le_max' _ _ ?_)
  · intro b hb
    have := Finset.mem_range.mp hb
    omega
  · have : 0 < n := by
      obtain ⟨x, hx⟩ := hne
      have := Finset.mem_range.mp hx
      omega
    exact Finset.mem_range.mpr (by omega)

theorem icc_min (a b : ℕ) (hab : a ≤ b) (hne : (Finset.Icc a b).Nonempty) :
    (Finset.Icc a b).min' hne = a :=
  le_antisymm (Finset.min'_le _ _ (Finset.mem_Icc.mpr ⟨le_refl a, hab⟩))
    (Finset.le_min' _ _ _ (fun _ hy => (Finset.mem_Icc.mp hy).1))

theorem icc_max (a b : ℕ) (hab : a ≤ b) (hne : (Finset.Icc a b).Nonempty) :
    (Finset.Icc a b).max' hne = b :=
  le_antisymm (Finset.max'_le _ _ _ (fun _ hy => (Finset.mem_Icc.mp hy).2))
    (Finset.le_max' _ _ (Finset.mem_Icc.mpr ⟨hab, le_refl b⟩))

theorem computeIjBbox_sentinel (x y : ℕ → ℕ → ℚ) (w h : ℕ)
    (bbox : ℚ × ℚ × ℚ × ℚ) (xb : ℚ) (ib : ℕ)
    (hemp : pixelHits x y w h (bbox.1 - xb) (bbox.2.1 - xb)
      (bbox.2.2.1 + xb) (bbox.2.2.2 + xb) = ∅) :
    computeIjBbox x y w h bbox xb ib = (-1, -1, -1, -1) := by
  unfold computeIjBbox
  rw [hemp]
  unfold ijBoxFromHits
  rw [dif_neg Finset.not_nonempty_empty]

theorem computeIjBbox_prod (x y : ℕ → ℕ → ℚ) (w h : ℕ)
    (bbox : ℚ × ℚ × ℚ × ℚ) (xb : ℚ) (ib : ℕ) (A B : Finset ℕ)
    (hA : A.Nonempty) (hB : B.Nonempty)
    (hfil : pixelHits x y w h (bbox.1 - xb) (bbox.2.1 - xb)
      (bbox.2.2.1 + xb) (bbox.2.2.2 + xb) = A ×ˢ B) :
    computeIjBbox x y w h bbox xb ib =
      (((A.min' hA - ib : ℕ) : ℤ), ((B.min' hB - ib : ℕ) : ℤ),
       ((min (A.max' hA + 1 + ib) w : ℕ) : ℤ),
       ((min (B.max' hB + 1 + ib) h : ℕ) : ℤ)) := by
  unfold computeIjBbox
  rw [hfil]
  exact ijBoxFromHits_product A B w h ib hA hB

theorem gmGlobal_hits_empty :
    pixelHits (fun _ i => regularXCoord gmGlobal i)
      (fun j _ => regularYCoord gmGlobal j) gmGlobal.width
      gmGlobal.height ((-190 : ℚ) - 0) ((-100 : ℚ) - 0)
      ((-180 : ℚ) + 0) ((-90 : ℚ) + 0) = ∅ := by
  rw [Finset.eq_empty_iff_forall_not_mem]
  rintro ⟨i, j⟩ hp
  rw [pixelHits, Finset.mem_filter, Finset.mem_product] at hp
  obtain ⟨⟨_, hj⟩, _, _, _, h4⟩ := hp
  rw [Finset.mem_range] at hj
  rw [gmGlobal_yCoord] at h4
  have hh : gmGlobal.height = 360 := rfl
  rw [hh] at hj
  have hjq : (j : ℚ) ≤ 359 := by exact_mod_cast Nat.lt_succ_iff.mp hj
  linarith

theorem gmGlobal_hits_quadrant :
    pixelHits (fun _ i => regularXCoord gmGlobal i)
      (fun j _ => regularYCoord gmGlobal j) gmGlobal.width
      gmGlobal.height ((-180 : ℚ) - 0) ((-90 : ℚ) - 0)
      ((0 : ℚ) + 0) ((0 : ℚ) + 0) =
      Finset.range 360 ×ˢ Finset.Icc 180 359 := by
  rw [pixelHits]
  ext ⟨i, j⟩
  rw [Finset.mem_filter, Finset.mem_product, Finset.mem_product]
  simp only [Finset.mem_range, Finset.mem_Icc, gmGlobal_xCoord,
    gmGlobal_yCoord]
  have hw : gmGlobal.width = 720 := rfl
  have hh : gmGlobal.height = 360 := rfl
  rw [hw, hh]
  constructor
  · rintro ⟨⟨hi, hj⟩, h1, h2, h3, h4⟩
    have hiq : (i : ℚ) < 360 := by linarith
    have hjq : (179 : ℚ) < (j : ℚ) := by linarith
    have hi360 : i < 360 := by exact_mod_cast hiq
    have hj179 : 179 < j := by exact_mod_cast hjq
    exact ⟨hi360, by omega, by omega⟩
  · rintro ⟨hi, hj1, hj2⟩
    have hiq : (i : ℚ) ≤ 359 := by exact_mod_cast Nat.lt_succ_iff.mp hi
    have h0 : (0 : ℚ) ≤ (i : ℚ) := Nat.cast_nonneg i
    have hj1q : (180 : ℚ) ≤ (j : ℚ) := by exact_mod_cast hj1
    have hj2q : (j : ℚ) ≤ 359 := by exact_mod_cast hj2
    exact ⟨⟨by omega, by omega⟩, by linarith, by linarith, by linarith,
      by linarith⟩

theorem ijBboxFromXyBbox_eq (gm : GridMapping) (b : ℚ × ℚ × ℚ × ℚ)
    (xb : ℚ) (ib : ℕ) :
    ijBboxFromXyBbox gm b xb ib =
      computeIjBbox (fun _ i => regularXCoord gm i)
        (fun j _ => regularYCoord gm j) gm.width gm.height b xb ib := by
  unfold ijBboxFromXyBbox ijBboxesFromXyBboxes
  rw [List.map_cons, List.map_nil, List.headD_cons]

/-- C6: on the regular global grid (`size=(720,360)`,
`xy_bbox=(-180,-90,180,90)`), the query box `(-190,-100,-180,-90)` with
`ij_border=1` yields the no-intersection sentinel `(-1,-1,-1,-1)`, the
query `(-180,-90,0,0)` with `ij_border=1` yields `(0,179,361,360)`, the
vectorized form emits the same sentinel on the singleton query, and the
scalar form agrees with the vectorized form entrywise on every input. -/
theorem claim_C6 :
    ijBboxFromXyBbox gmGlobal (-190, -100, -180, -90) 0 1 =
      (-1, -1, -1, -1) ∧
    ijBboxFromXyBbox gmGlobal (-180, -90, 0, 0) 0 1 =
      (0, 179, 361, 360) ∧
    ijBboxesFromXyBboxes gmGlobal [(-190, -100, -180, -90)] 0 1 =
      [(-1, -1, -1, -1)] ∧
    (∀ (gm : GridMapping) (boxes : List (ℚ × ℚ × ℚ × ℚ)) (xb : ℚ)
       (ib k : ℕ),
      (ijBboxesFromXyBboxes gm boxes xb ib)[k]? =
        (boxes[k]?).map fun b => ijBboxFromXyBbox gm b xb ib) := by
  have hsent := computeIjBbox_sentinel
    (fun _ i => regularXCoord gmGlobal i)
    (fun j _ => regularYCoord gmGlobal j) gmGlobal.width
    gmGlobal.height (-190, -100, -180, -90) 0 1 gmGlobal_hits_empty
  refine ⟨?_, ?_, ?_, ?_⟩
  · rw [ijBboxFromXyBbox_eq]
    exact hsent
  · have hA : (Finset.range 360).Nonempty := ⟨0, by simp⟩
    have hB : (Finset.Icc (180 : ℕ) 359).Nonempty := ⟨180, by simp⟩
    have heval := computeIjBbox_prod
      (fun _ i => regularXCoord gmGlobal i)
      (fun j _ => regularYCoord gmGlobal j) gmGlobal.width
      gmGlobal.height (-180, -90, 0, 0) 0 1 _ _ hA hB
      gmGlobal_hits_quadrant
    rw [range_min 360 (by norm_num), range_max 360,
      icc_min 180 359 (by norm_num), icc_max 180 359 (by norm_num)]
      at heval
    norm_num at heval
    rw [ijBboxFromXyBbox_eq]
    exact heval
  · unfold ijBboxesFromXyBboxes
    rw [List.map_cons, List.map_nil, hsent]
  · intro gm boxes xb ib k
    simp only [ijBboxFromXyBbox_eq]
    unfold ijBboxesFromXyBboxes
    rw [List.getElem?_map]

/-! ## Claims about the affine resampling engine -/

/-- C8: `resample_dataset` reads only the diagonal scale entries and the
offset column of its 2x3 matrix: matrices differing only in the
off-diagonal entries produce identical outputs, for every dataset, size,
tile size, dimension naming, variable configuration and interpolation
backend. -/
theorem claim_C8 {α Agg : Type} (R : ResampleBackend α Agg) (nm : Agg)
    (ds : Dataset α) (size tileSize : ℕ × ℕ)
    (xyDimNames : String × String)
    (cfgs : List (String × VarConfig Agg)) (a b c d e f b2 d2 : ℚ) :
    resampleDataset R nm ds ((a, b, c), (d, e, f)) size tileSize
      xyDimNames cfgs =
    resampleDataset R nm ds ((a, b2, c), (d2, e, f)) size tileSize
      xyDimNames cfgs := rfl

theorem nodup_keys_val_eq {β : Type} (l : List (String × β))
    (hnd : (l.map Prod.fst).Nodup) {k : String} {a b : β}
    (ha : (k, a) ∈ l) (hb : (k, b) ∈ l) : a = b := by
  induction l with
  | nil => cases ha
  | cons p t ih =>
    rw [List.map_cons, List.nodup_cons] at hnd
    rcases List.mem_cons.mp ha with ha1 | ha2 <;>
      rcases List.mem_cons.mp hb with hb1 | hb2
    · rw [← ha1] at hb1
      exact congrArg Prod.snd hb1.symm
    · exfalso
      apply hnd.1
      rw [← ha1]
      exact List.mem_map.mpr ⟨(k, b), hb2, rfl⟩
    · exfalso
      apply hnd.1
      rw [← hb1]
      exact List.mem_map.mpr ⟨(k, a), ha2, rfl⟩
    · exact ih hnd.2 ha2 hb2


theorem trailing_mem_xdim {var : Variable α} {xDim yDim : String}
    (h : var.dims.length ≥ 2 ∧
      var.dims.drop (var.dims.length - 2) = [yDim, xDim]) :
    xDim ∈ var.dims := by
  have : xDim ∈ var.dims.drop (var.dims.length - 2) := by
    rw [h.2]
    simp
  exact List.mem_of_mem_drop this

/-- C9: in `resample_dataset`, a variable is kept (resampled) exactly
when its trailing two dimensions are `(y_dim, x_dim)`, kept unchanged
exactly when it contains neither spatial dimension, and otherwise its key
is absent from the output dataset. -/
theorem claim_C9 {α Agg : Type} (R : ResampleBackend α Agg) (nm : Agg)
    (ds : Dataset α) (matrix : AffineTransformMatrix)
    (size tileSize : ℕ × ℕ) (xDim yDim : String)
    (cfgs : List (String × VarConfig Agg)) (k : String)
    (var : Variable α) (hnd : (ds.vars.map Prod.fst).Nodup)
    (hmem : (k, var) ∈ ds.vars) :
    (k ∈ (resampleDataset R nm ds matrix size tileSize (xDim, yDim)
        cfgs).vars.map Prod.fst ↔
      ((var.dims.length ≥ 2 ∧
        var.dims.drop (var.dims.length - 2) = [yDim, xDim]) ∨
       (xDim ∉ var.dims ∧ yDim ∉ var.dims))) ∧
    (var.dims.length ≥ 2 ∧
        var.dims.drop (var.dims.length - 2) = [yDim, xDim] →
      ∃ d, (k, { var with data := d }) ∈
        (resampleDataset R nm ds matrix size tileSize (xDim, yDim)
          cfgs).vars) ∧
    (xDim ∉ var.dims ∧ yDim ∉ var.dims →
      (k, var) ∈
        (resampleDataset R nm ds matrix size tileSize (xDim, yDim)
          cfgs).vars) := by
  obtain ⟨sw, sh⟩ := size
  obtain ⟨tw, th⟩ := tileSize
  have hres : var.dims.length ≥ 2 ∧
      var.dims.drop (var.dims.length - 2) = [yDim, xDim] →
      ∃ d, (k, { var with data := d }) ∈
        (resampleDataset R nm ds matrix (sw, sh) (tw, th) (xDim, yDim)
          cfgs).vars := by
    intro h2
    refine ⟨R var.data (matrix.2.2.1, matrix.1.1)
      (matrix.2.2.2, matrix.1.2.2) (sh, sw) (th, tw)
      (((cfgs.lookup k).getD ⟨none, none, none⟩).splineOrder.getD
        (if var.isIntOrBool then 0 else 1))
      (((cfgs.lookup k).getD ⟨none, none, none⟩).aggregator.getD
        (if var.isIntOrBool then none else some nm))
      (((cfgs.lookup k).getD ⟨none, none, none⟩).recoverNan.getD
        (if var.isIntOrBool then false else true)), ?_⟩
    unfold resampleDataset
    simp only [List.mem_filterMap]
    refine ⟨(k, var), hmem, ?_⟩
    simp only [if_pos h2]
  have hpass : xDim ∉ var.dims ∧ yDim ∉ var.dims →
      (k, var) ∈ (resampleDataset R nm ds matrix (sw, sh) (tw, th)
        (xDim, yDim) cfgs).vars := by
    intro hp
    have hn2 : ¬ (var.dims.length ≥ 2 ∧
        var.dims.drop (var.dims.length - 2) = [yDim, xDim]) :=
      fun h2 => hp.1 (trailing_mem_xdim h2)
    unfold resampleDataset
    simp only [List.mem_filterMap]
    refine ⟨(k, var), hmem, ?_⟩
    simp only [if_neg hn2, if_pos hp]
  refine ⟨⟨?_, ?_⟩, hres, hpass⟩
  · intro hk
    obtain ⟨p, hp, hpk⟩ := List.mem_map.mp hk
    unfold resampleDataset at hp
    simp only [List.mem_filterMap] at hp
    obtain ⟨⟨k0, var0⟩, h0, hf⟩ := hp
    by_cases h2 : var0.dims.length ≥ 2 ∧
        var0.dims.drop (var0.dims.length - 2) = [yDim, xDim]
    · simp only [if_pos h2] at hf
      obtain rfl := Option.some.inj hf
      obtain rfl : k0 = k := hpk
      have hv : var0 = var := nodup_keys_val_eq ds.vars hnd h0 hmem
      subst hv
      exact Or.inl h2
    · simp only [if_neg h2] at hf
      by_cases hp2 : xDim ∉ var0.dims ∧ yDim ∉ var0.dims
      · simp only [if_pos hp2] at hf
        obtain rfl := Option.some.inj hf
        obtain rfl : k0 = k := hpk
        have hv : var0 = var := nodup_keys_val_eq ds.vars hnd h0 hmem
        subst hv
        exact Or.inr hp2
      · simp only [if_neg hp2] at hf
        cases hf
  · intro hc
    rcases hc with h2 | hp
    · obtain ⟨d, hd⟩ := hres h2
      exact List.mem_map.mpr ⟨_, hd, rfl⟩
    · exact List.mem_map.mpr ⟨_, hpass hp, rfl⟩


/-- Witness for C9 at a one-variable dataset whose variable has trailing
dimensions `(y, x)`. -/
theorem claim_C9_witness :
    ((((⟨[("a", ⟨["t", "y", "x"], false, [], (5 : ℕ)⟩)], [], []⟩ :
        Dataset ℕ).vars.map Prod.fst).Nodup) ∧
     ("a", (⟨["t", "y", "x"], false, [], (5 : ℕ)⟩ : Variable ℕ)) ∈
        (⟨[("a", ⟨["t", "y", "x"], false, [], (5 : ℕ)⟩)], [], []⟩ :
          Dataset ℕ).vars) ∧
    ((∃ d, ("a", { (⟨["t", "y", "x"], false, [], (5 : ℕ)⟩ : Variable ℕ)
        with data := d }) ∈
      (resampleDataset (fun d _ _ _ _ _ _ _ => d) () 
        (⟨[("a", ⟨["t", "y", "x"], false, [], (5 : ℕ)⟩)], [], []⟩ :
          Dataset ℕ)
        ((1, 0, 0), (0, 1, 0)) (4, 4) (2, 2) ("x", "y") []).vars)) :=
  ⟨⟨by decide, by decide⟩,
   (claim_C9 (fun d _ _ _ _ _ _ _ => d) ()
     (⟨[("a", ⟨["t", "y", "x"], false, [], (5 : ℕ)⟩)], [], []⟩ :
       Dataset ℕ)
     ((1, 0, 0), (0, 1, 0)) (4, 4) (2, 2) "x" "y" [] "a"
     (⟨["t", "y", "x"], false, [], (5 : ℕ)⟩ : Variable ℕ)
     (by decide) (by decide)).2.1 (by decide)⟩

/-! ## Claims about the spatial resampling orchestrator -/

theorem mathIsclose_comm (a b t : ℚ) :
    mathIsclose a b t = mathIsclose b a t := by
  unfold mathIsclose
  rw [abs_sub_comm, max_comm |a| |b|]

theorem mathIsclose_self (a t : ℚ) : mathIsclose a a t = true := by
  unfold mathIsclose
  rw [decide_eq_true_iff]
  have h1 : |a - a| = 0 := by rw [sub_self, abs_zero]
  rw [h1]
  refine le_max_of_le_left ?_
  positivity

theorem isClose_refl (gm : GridMapping) (t : ℚ) :
    isClose gm gm t = true := by
  unfold isClose
  rw [if_pos ⟨rfl, rfl, rfl, rfl, rfl, rfl⟩]
  simp [mathIsclose_self]

theorem isClose_comm (a b : GridMapping) (t : ℚ) :
    isClose a b t = isClose b a t := by
  unfold isClose
  have hiff : (a.isJAxisUp = b.isJAxisUp ∧ a.isLon360 = b.isLon360 ∧
      a.isRegular = b.isRegular ∧ a.size = b.size ∧
      a.tileSize = b.tileSize ∧ a.crs = b.crs) ↔
      (b.isJAxisUp = a.isJAxisUp ∧ b.isLon360 = a.isLon360 ∧
      b.isRegular = a.isRegular ∧ b.size = a.size ∧
      b.tileSize = a.tileSize ∧ b.crs = a.crs) := by
    constructor <;>
      (rintro ⟨h1, h2, h3, h4, h5, h6⟩
       exact ⟨h1.symm, h2.symm, h3.symm, h4.symm, h5.symm, h6.symm⟩)
  rw [if_congr hiff rfl rfl, mathIsclose_comm a.xRes, 
    mathIsclose_comm a.yRes, mathIsclose_comm a.xyBbox.1,
    mathIsclose_comm a.xyBbox.2.1, mathIsclose_comm a.xyBbox.2.2.1,
    mathIsclose_comm a.xyBbox.2.2.2]


theorem steps_noDead_eq {α Agg : Type} (ops : SpatialOps α Agg)
    (recur : Dataset α → Option GridMapping → Option GridMapping →
      List (String × VarConfig Agg) → Except String (Dataset α))
    (ds : Dataset α) (S T : GridMapping)
    (cfgs : List (String × VarConfig Agg)) :
    resampleInSpaceSteps ops recur ds S T cfgs =
    resampleInSpaceStepsNoDead ops recur ds S T cfgs := by
  unfold resampleInSpaceSteps resampleInSpaceStepsNoDead
  by_cases h1 : isClose S T (1/100000) = true
  · simp only [h1, if_true]
  · simp only [h1, if_false, Bool.false_eq_true]
    by_cases h2 : ¬ truthy T.isRegular = true
    · simp only [if_pos h2]
    · simp only [if_neg h2]
      by_cases h3 : (S.crs.isGeographic ∧ T.crs.isGeographic) ∨
          S.crs = T.crs
      · simp only [if_pos h3]
        by_cases h4 : truthy S.isRegular = true
        · simp only [h4, if_true]
        · simp only [h4, Bool.false_eq_true, if_false]
      · simp only [if_neg h3]


theorem body_noDead_eq {α Agg : Type} (ops : SpatialOps α Agg)
    (recur : Dataset α → Option GridMapping → Option GridMapping →
      List (String × VarConfig Agg) → Except String (Dataset α))
    (ds : Dataset α) (sgm? tgm? : Option GridMapping)
    (cfgs : List (String × VarConfig Agg)) :
    resampleInSpaceBody ops recur ds sgm? tgm? cfgs =
    resampleInSpaceBodyNoDead ops recur ds sgm? tgm? cfgs := by
  unfold resampleInSpaceBody resampleInSpaceBodyNoDead
  cases tgm? with
  | some t => exact steps_noDead_eq ops recur ds _ t cfgs
  | none =>
    exact congrArg
      (Except.bind (toRegularGridMapping
        (sgm?.getD (ops.fromDataset ds none none)) none false))
      (funext fun t2 => steps_noDead_eq ops recur ds _ t2 cfgs)

/-- C10: `resample_in_space` computes the same function as its reading
with the downscale-a-regular-source sub-branch removed: whenever control
reaches the downsample-before-rectify step the source grid mapping is
known not to be regular, so the `source_gm.scale`-based sub-branch is
unreachable and downscaled grids always come from
`GridMapping.from_dataset`. -/
theorem claim_C10 {α Agg : Type} (ops : SpatialOps α Agg) (fuel : ℕ)
    (ds : Dataset α) (sgm? tgm? : Option GridMapping)
    (cfgs : List (String × VarConfig Agg)) :
    resampleInSpace ops fuel ds sgm? tgm? cfgs =
    resampleInSpaceNoDead ops fuel ds sgm? tgm? cfgs := by
  induction fuel generalizing ds sgm? tgm? cfgs with
  | zero => rfl
  | succ n ih =>
    show resampleInSpaceBody ops (resampleInSpace ops n) ds sgm? tgm?
        cfgs =
      resampleInSpaceBodyNoDead ops (resampleInSpaceNoDead ops n) ds
        sgm? tgm? cfgs
    rw [body_noDead_eq]
    have hfn : resampleInSpace ops n = resampleInSpaceNoDead ops n :=
      funext fun a => funext fun b => funext fun c => funext fun d =>
        ih a b c d
    rw [hfn]


/-- C4: `resample_in_space` returns the input dataset unchanged whenever
`source_gm.is_close(target_gm)` holds (for every dataset, fuel and
collaborator instantiation), and `is_close` is reflexive and symmetric
at every tolerance. -/
theorem claim_C4 :
    (∀ {α Agg : Type} (ops : SpatialOps α Agg) (fuel : ℕ)
       (ds : Dataset α) (gm gm2 : GridMapping)
       (cfgs : List (String × VarConfig Agg)),
      isClose gm gm2 (1/100000) = true →
      resampleInSpace ops (fuel + 1) ds (some gm) (some gm2) cfgs =
        .ok ds) ∧
    (∀ (gm : GridMapping) (t : ℚ), isClose gm gm t = true) ∧
    (∀ (a b : GridMapping) (t : ℚ), isClose a b t = isClose b a t) := by
  refine ⟨?_, isClose_refl, isClose_comm⟩
  intro α Agg ops fuel ds gm gm2 cfgs h
  have hsteps : resampleInSpaceSteps ops (resampleInSpace ops fuel) ds
      gm gm2 cfgs = .ok ds := by
    unfold resampleInSpaceSteps
    rw [if_pos h]
  exact hsteps

/-- Witness for C4: the fast path at the concrete global grid against
itself, with trivial collaborators. -/
theorem claim_C4_witness :
    isClose gmGlobal gmGlobal (1/100000) = true ∧
    resampleInSpace unitOps 1 unitDataset (some gmGlobal)
      (some gmGlobal) [] = .ok unitDataset :=
  ⟨claim_C4.2.1 gmGlobal (1/100000),
   claim_C4.1 unitOps 0 unitDataset gmGlobal gmGlobal []
     (claim_C4.2.1 gmGlobal (1/100000))⟩

end Xcube
